import Mathlib

/-!
Shallow embedding of the inventory core of OrderFlowMaster.

The embedded code lives in `src/server/storage.ts` (class `DatabaseStorage`),
`src/server/routes.ts` and `src/shared/schema.ts`.  Tables are lists of rows;
timestamp columns (`createdAt`, `updatedAt`) are omitted throughout, since no
verified property mentions them.  JavaScript numbers holding integer columns are
embedded as `Int`; decimal price columns as `ℚ`.

The warehouse-transfer workflow and the delta-based adjustment endpoint are
referenced by the client page (`src/unnamed/part_002`: `/api/inventory/adjust`,
`/api/warehouse-transfers/:id/approve`, `/process`) but have no server
implementation and no tables in `schema.ts`; those operations are modelled from
the spec where the development needs them, and are marked as such.
-/

namespace OrderFlowMaster

/-- One row of the `inventory` table, `schema.ts` lines 130-139.
`quantity` and `reservedQuantity` are NOT NULL with default 0;
`minStockLevel` is nullable with column default 0; `maxStockLevel` is nullable
with no default.  The `id` primary key plays no role in any claim and is
omitted; note the table declares no unique index on
(`warehouseId`, `productId`). -/
structure InventoryRow where
  warehouseId : String
  productId : String
  quantity : Int
  reservedQuantity : Int
  minStockLevel : Option Int
  maxStockLevel : Option Int
deriving Repr, DecidableEq

/-- One row of the `products` table, `schema.ts` lines 116-127, restricted to
the columns the verified queries touch.  `unitPrice` is a nullable decimal.
`costPrice` is referenced by `storage.ts` (lines 767, 847) under
`COALESCE(products.costPrice, 0)` although `schema.ts` declares no such
column; it is embedded as a nullable column so that the aggregation code can
be stated, with `none` for the always-missing value. -/
structure ProductRow where
  id : String
  unitPrice : Option ℚ
  costPrice : Option ℚ
  isActive : Bool
deriving Repr, DecidableEq

/-- A stock-movement audit record as described by the spec (§3).
`schema.ts` defines NO table for it: no operation in `src/server` ever
writes one.  The field exists in the store so that the audit-trail
properties can be stated, and only the spec-modelled adjustment below
appends to it. -/
structure StockMovement where
  warehouseId : String
  productId : String
  quantity : Int
  previousQuantity : Int
  newQuantity : Int
deriving Repr, DecidableEq

/-- One row of the `orders` table, `schema.ts` lines 52-76, restricted to the
columns `getOrders` filters on.  `createdAt` is kept here (as an integer
timestamp) because `getOrders` sorts and range-filters on it. -/
structure OrderRow where
  platformOrderId : String
  platform : String
  customerName : String
  productName : String
  status : String
  createdAt : Int
deriving Repr, DecidableEq

/-- The database state touched by the verified operations. -/
structure Store where
  inv : List InventoryRow
  products : List ProductRow
  orders : List OrderRow
  movements : List StockMovement
deriving Repr, DecidableEq

def emptyStore : Store := ⟨[], [], [], []⟩

/-- Row predicate for the drizzle condition
`and(eq(inventory.warehouseId, w), eq(inventory.productId, p))`. -/
def matchesCell (w p : String) (r : InventoryRow) : Bool :=
  decide (r.warehouseId = w ∧ r.productId = p)

/-- Look up the (first) inventory row of a (warehouse, product) pair. -/
def getCell (s : Store) (w p : String) : Option InventoryRow :=
  s.inv.find? (matchesCell w p)

/-- The stored quantity of a cell, if the cell exists. -/
def cellQuantity (s : Store) (w p : String) : Option Int :=
  (getCell s w p).map (·.quantity)

/-- Core of `DatabaseStorage.updateInventory`, `storage.ts` lines 677-687:
`insert(inventory).values({warehouseId, productId, quantity})
 .onConflictDoUpdate({target: [warehouseId, productId], set: {quantity}})`.
If a row for the pair exists its `quantity` is overwritten with the supplied
absolute value; otherwise a fresh row is inserted, the omitted columns taking
the `schema.ts` defaults (`reservedQuantity` 0, `minStockLevel` 0,
`maxStockLevel` NULL).  There is no sign check and no movement write. -/
def updateCell (rows : List InventoryRow) (w p : String) (q : Int) :
    List InventoryRow :=
  match rows with
  | [] => [⟨w, p, q, 0, some 0, none⟩]
  | r :: rs =>
    if r.warehouseId = w ∧ r.productId = p then
      { r with quantity := q } :: rs
    else
      r :: updateCell rs w p q

/-- `DatabaseStorage.updateInventory(warehouseId, productId, quantity)`,
`storage.ts` lines 677-687, surfaced by `PUT /api/inventory`
(`routes.ts` lines 350-359), as a store transformer. -/
def updateInventory (s : Store) (w p : String) (q : Int) : Store :=
  { s with inv := updateCell s.inv w p q }

/-- `DatabaseStorage.createInventory`, `storage.ts` lines 650-656: a plain
`insert(inventory).values(inventoryData)`.  `schema.ts` declares no unique
constraint on (`warehouseId`, `productId`), so the insert always appends a
row; the argument carries the column values after zod/database defaults. -/
def createInventory (s : Store) (r : InventoryRow) : Store :=
  { s with inv := s.inv ++ [r] }

/-! ### Basic lemmas about `updateCell` -/

theorem updateCell_find? (rows : List InventoryRow) (w p : String) (q : Int) :
    (updateCell rows w p q).find? (matchesCell w p) =
      some ((((rows.find? (matchesCell w p)).getD ⟨w, p, q, 0, some 0, none⟩))
        |> (fun r => { r with quantity := q })) := by
  induction rows with
  | nil => simp [updateCell, matchesCell]
  | cons r rs ih =>
    by_cases h : r.warehouseId = w ∧ r.productId = p
    · simp [updateCell, matchesCell, h, List.find?]
    · simp [updateCell, matchesCell, h, List.find?] at ih ⊢
      exact ih

theorem cellQuantity_updateInventory (s : Store) (w p : String) (q : Int) :
    cellQuantity (updateInventory s w p q) w p = some q := by
  simp [cellQuantity, getCell, updateInventory, updateCell_find?]

theorem updateCell_idem (rows : List InventoryRow) (w p : String) (q : Int) :
    updateCell (updateCell rows w p q) w p q = updateCell rows w p q := by
  induction rows with
  | nil => simp [updateCell]
  | cons r rs ih =>
    by_cases h : r.warehouseId = w ∧ r.productId = p
    · simp [updateCell, h]
    · simp [updateCell, h, ih]

/-- Non-negativity of one inventory row (spec §3, invariant 1). -/
def rowNonNeg (r : InventoryRow) : Prop :=
  0 ≤ r.quantity ∧ 0 ≤ r.reservedQuantity

/-- Non-negativity of every inventory row of a store. -/
def storeNonNeg (s : Store) : Prop :=
  ∀ r ∈ s.inv, rowNonNeg r

/-- The inventory-mutating calls reachable through `storage.ts`:
`updateInventory` and `createInventory`. -/
inductive InvOp where
  | update (w p : String) (q : Int)
  | create (r : InventoryRow)
deriving Repr, DecidableEq

/-- Apply one inventory-mutating call to the store. -/
def applyInvOp (s : Store) : InvOp → Store
  | .update w p q => updateInventory s w p q
  | .create r => createInventory s r

/-- The supplied values of one call are non-negative. -/
def invOpNonNeg : InvOp → Prop
  | .update _ _ q => 0 ≤ q
  | .create r => rowNonNeg r

theorem updateCell_nonneg (rows : List InventoryRow) (w p : String) (q : Int)
    (hq : 0 ≤ q) :
    (∀ r ∈ rows, rowNonNeg r) → ∀ r ∈ updateCell rows w p q, rowNonNeg r := by
  induction rows with
  | nil =>
    intro _ x hx
    simp [updateCell] at hx
    subst hx
    exact ⟨hq, le_refl 0⟩
  | cons head rs ih =>
    intro hrows
    by_cases h : head.warehouseId = w ∧ head.productId = p
    · intro x hx
      simp [updateCell, h] at hx
      rcases hx with hx | hx
      · subst hx
        exact ⟨hq, (hrows head (by simp)).2⟩
      · exact hrows x (by simp [hx])
    · intro x hx
      simp [updateCell, h] at hx
      rcases hx with hx | hx
      · exact hrows x (by simp [hx])
      · exact ih (fun y hy => hrows y (by simp [hy])) x hx

theorem applyInvOp_nonneg (s : Store) (op : InvOp)
    (hs : storeNonNeg s) (hop : invOpNonNeg op) :
    storeNonNeg (applyInvOp s op) := by
  cases op with
  | update w p q =>
    exact updateCell_nonneg s.inv w p q hop hs
  | create r =>
    intro x hx
    simp [createInventory, applyInvOp] at hx
    rcases hx with hx | hx
    · exact hs x hx
    · subst hx
      exact hop

/-! ### Concrete stores used in counterexamples -/

/-- Scenario B of the spec: the cell (W1, P1) holds quantity 50, nothing
reserved, no movement recorded yet. -/
def scenarioB : Store :=
  { emptyStore with inv := [⟨"W1", "P1", 50, 0, some 0, none⟩] }

/-! ## C1 -/

/-- Claim C1, counterexample.  The surfaced inventory-update operation
(`updateInventory` via `PUT /api/inventory`) interprets its third argument as
an absolute quantity and stores it unconditionally: called on Scenario B with
-60 it succeeds, the stored quantity becomes -60 (it is not left at 50), and
no movement is recorded — there is no `InsufficientStock` failure path in the
code at all. -/
theorem updateInventory_scenarioB_overwrites :
    cellQuantity scenarioB "W1" "P1" = some 50 ∧
    cellQuantity (updateInventory scenarioB "W1" "P1" (-60)) "W1" "P1"
      = some (-60) ∧
    cellQuantity (updateInventory scenarioB "W1" "P1" (-60)) "W1" "P1"
      ≠ some 50 ∧
    (updateInventory scenarioB "W1" "P1" (-60)).movements = [] := by
  refine ⟨rfl, ?_, ?_, rfl⟩
  · exact cellQuantity_updateInventory scenarioB "W1" "P1" (-60)
  · rw [cellQuantity_updateInventory scenarioB "W1" "P1" (-60)]
    decide

/-- Claim C1, amended.  `updateInventory` is an unconditional upsert of the
supplied absolute quantity: after the call the cell holds exactly the supplied
value (negative values included), the operation never fails, and the movement
log is untouched. -/
theorem updateInventory_unconditional_upsert (s : Store) (w p : String)
    (q : Int) :
    cellQuantity (updateInventory s w p q) w p = some q ∧
    (updateInventory s w p q).movements = s.movements := by
  exact ⟨cellQuantity_updateInventory s w p q, rfl⟩

/-! ## C2 -/

/-- Claim C2, counterexample.  A single `updateInventory` call with a negative
supplied quantity commits a row with `quantity = -5 < 0`: the engine clamps
nothing and rejects nothing, so the non-negativity invariant fails after the
very first call of this sequence. -/
theorem updateInventory_negative_quantity_persists :
    cellQuantity (updateInventory emptyStore "W1" "P1" (-5)) "W1" "P1"
      = some (-5) ∧
    ¬ storeNonNeg (updateInventory emptyStore "W1" "P1" (-5)) := by
  constructor
  · exact cellQuantity_updateInventory emptyStore "W1" "P1" (-5)
  · intro h
    have := h ⟨"W1", "P1", -5, 0, some 0, none⟩ (by
      simp [updateInventory, emptyStore, updateCell])
    exact absurd this.1 (by decide)

/-- Claim C2, amended.  The code performs no non-negativity check of its own:
the invariant `quantity ≥ 0 ∧ reservedQuantity ≥ 0` holds after every call of
a sequence of `updateInventory`/`createInventory` calls exactly when the
initial store satisfies it and every call supplies non-negative values. -/
theorem inventory_nonneg_of_nonneg_inputs (ops : List InvOp) (s : Store)
    (hs : storeNonNeg s) (hops : ∀ op ∈ ops, invOpNonNeg op) :
    storeNonNeg (ops.foldl applyInvOp s) := by
  induction ops generalizing s with
  | nil => exact hs
  | cons op rest ih =>
    exact ih (applyInvOp s op)
      (applyInvOp_nonneg s op hs (hops op (by simp)))
      (fun o ho => hops o (by simp [ho]))

/-- Witness for `inventory_nonneg_of_nonneg_inputs` at a concrete trace. -/
theorem inventory_nonneg_of_nonneg_inputs_witness :
    storeNonNeg ([InvOp.update "W1" "P1" 50,
                  InvOp.create ⟨"W2", "P1", 3, 1, none, none⟩,
                  InvOp.update "W1" "P1" 7].foldl applyInvOp emptyStore) := by
  exact inventory_nonneg_of_nonneg_inputs
    [InvOp.update "W1" "P1" 50,
     InvOp.create ⟨"W2", "P1", 3, 1, none, none⟩,
     InvOp.update "W1" "P1" 7] emptyStore
    (by intro r hr; simp [emptyStore] at hr)
    (by intro op hop; fin_cases hop <;> simp [invOpNonNeg, rowNonNeg])

/-! ## C3 -/

/-- Claim C3, counterexample.  A successful quantity mutation (the Scenario B
cell moved from 50 to 7) appends no stock-movement record: `schema.ts`
defines no stock-movement table and `updateInventory` writes only the
`inventory` row, so the movement count stays 0 where the claim demands
exactly 1. -/
theorem updateInventory_appends_no_movement :
    cellQuantity scenarioB "W1" "P1" = some 50 ∧
    cellQuantity (updateInventory scenarioB "W1" "P1" 7) "W1" "P1" = some 7 ∧
    scenarioB.movements.length = 0 ∧
    (updateInventory scenarioB "W1" "P1" 7).movements.length = 0 := by
  exact ⟨rfl, cellQuantity_updateInventory scenarioB "W1" "P1" 7, rfl, rfl⟩

/-- Claim C3, amended.  No inventory mutation in `storage.ts` appends any
stock-movement record: the repository schema has no such table, and both
`updateInventory` and `createInventory` leave the (necessarily empty)
movement log exactly as it was. -/
theorem inventory_mutations_preserve_movements (s : Store) (w p : String)
    (q : Int) (r : InventoryRow) :
    (updateInventory s w p q).movements = s.movements ∧
    (createInventory s r).movements = s.movements := by
  exact ⟨rfl, rfl⟩

/-! ## C5 -/

/-- Number of inventory rows stored for one (warehouse, product) pair. -/
def pairRowCount (s : Store) (w p : String) : Nat :=
  (s.inv.filter (matchesCell w p)).length

/-- Claim C5, failing run.  `schema.ts` (lines 130-139) declares no unique
index on (`warehouse_id`, `product_id`), so the plain insert of `createInventory`
(`storage.ts` lines 650-656) accepts a second row for a pair that already has
one: after two identical creates the pair (W1, P1) has two rows.  This
contradicts the `onConflictDoUpdate` target of `updateInventory` on exactly
that pair (lines 681-684), which presupposes the missing constraint. -/
theorem createInventory_duplicate_pair :
    pairRowCount
      (createInventory
        (createInventory emptyStore ⟨"W1", "P1", 5, 0, some 0, none⟩)
        ⟨"W1", "P1", 5, 0, some 0, none⟩) "W1" "P1" = 2 := by
  decide

/-! ## C6 -/

/-- `DatabaseStorage.getLowStockItems`, `storage.ts` lines 693-714: filters
`inventory.quantity <= COALESCE(inventory.minStockLevel, 10)`, plus
`eq(inventory.warehouseId, warehouseId)` when a warehouse id is supplied.
The joined warehouse/product detail rows do not affect which cells are
returned and are dropped. -/
def getLowStockItems (s : Store) (warehouseId : Option String) :
    List InventoryRow :=
  s.inv.filter (fun r =>
    decide (r.quantity ≤ r.minStockLevel.getD 10) &&
    (match warehouseId with
     | none => true
     | some w => decide (r.warehouseId = w)))

/-- Claim C6, counterexample.  A cell created by the inventory-update
operation without any explicit minimum gets the `schema.ts` column default
`minStockLevel = 0`, not NULL, so `COALESCE(minStockLevel, 10)` yields 0:
with quantity 8 (≤ 10) the cell does NOT appear in `getLowStockItems`,
although the claim says every never-configured cell with quantity ≤ 10
appears. -/
theorem lowStock_scenarioD_default_zero :
    getCell (updateInventory emptyStore "W1" "P1" 8) "W1" "P1"
      = some ⟨"W1", "P1", 8, 0, some 0, none⟩ ∧
    (8 : Int) ≤ 10 ∧
    getLowStockItems (updateInventory emptyStore "W1" "P1" 8) none = [] := by
  refine ⟨?_, by decide, ?_⟩ <;> decide

/-- Claim C6, amended.  `getLowStockItems` returns exactly the cells with
`quantity ≤ COALESCE(minStockLevel, 10)` (the warehouse filter applying when
supplied); the default threshold 10 applies only to cells whose
`minStockLevel` is NULL — there the boundary `quantity = 10` is included.
Cells created without an explicit minimum carry the column default 0 and so
appear only when `quantity ≤ 0`. -/
theorem getLowStockItems_spec (s : Store) (r : InventoryRow) :
    (r ∈ getLowStockItems s none ↔
      r ∈ s.inv ∧ r.quantity ≤ r.minStockLevel.getD 10) ∧
    (r.minStockLevel = none →
      (r ∈ getLowStockItems s none ↔ r ∈ s.inv ∧ r.quantity ≤ 10)) ∧
    (r.minStockLevel = some 0 →
      (r ∈ getLowStockItems s none ↔ r ∈ s.inv ∧ r.quantity ≤ 0)) ∧
    (∀ w, r ∈ getLowStockItems s (some w) ↔
      r ∈ s.inv ∧ r.quantity ≤ r.minStockLevel.getD 10 ∧ r.warehouseId = w) := by
  refine ⟨?_, ?_, ?_, ?_⟩
  · simp [getLowStockItems, List.mem_filter]
  · intro h
    simp [getLowStockItems, List.mem_filter, h]
  · intro h
    simp [getLowStockItems, List.mem_filter, h]
  · intro w
    simp [getLowStockItems, List.mem_filter, and_assoc]

/-- Scenario D boundary store: one cell with quantity 10 and
`minStockLevel` explicitly NULL. -/
def scenarioD : Store :=
  createInventory emptyStore ⟨"W1", "P1", 10, 0, none, none⟩

/-- Witness for `getLowStockItems_spec`: at the NULL-threshold boundary,
quantity 10 is returned. -/
theorem getLowStockItems_spec_witness :
    (⟨"W1", "P1", 10, 0, none, none⟩ : InventoryRow)
      ∈ getLowStockItems scenarioD none := by
  exact ((getLowStockItems_spec scenarioD ⟨"W1", "P1", 10, 0, none, none⟩).2.1
    rfl).mpr ⟨by simp [scenarioD, createInventory, emptyStore], by decide⟩

/-! ## C9 -/

/-- Claim C9.  `updateInventory` writes an absolute quantity, so performing
the call twice with identical arguments leaves the whole store (every
inventory row included) in the same state as performing it once. -/
theorem updateInventory_idempotent (s : Store) (w p : String) (q : Int) :
    updateInventory (updateInventory s w p q) w p q
      = updateInventory s w p q := by
  simp [updateInventory, updateCell_idem]

/-! ## C4 — transfer workflow (spec-modelled)

The client page (`src/unnamed/part_002`, lines 145-190) calls
`POST /api/inventory/adjust`, `POST /api/warehouse-transfers`,
`PATCH /api/warehouse-transfers/:id/approve` and
`POST /api/warehouse-transfers/:id/process`, but `routes.ts` registers none
of these and `schema.ts` has no transfer table: the server side of the
workflow is missing from the repository.  The definitions below are modelled
from the spec (§4.2-§4.3). -/

/-- Modelled from the spec: the transfer states of §4.3
(`pending → approved → completed`, cancellation from `pending`/`approved`). -/
inductive TransferStatus where
  | pending
  | approved
  | completed
  | cancelled
deriving Repr, DecidableEq

/-- Modelled from the spec: the Warehouse Transfer record of §3, whose table
is absent from `schema.ts`. -/
structure Transfer where
  fromWarehouseId : String
  toWarehouseId : String
  productId : String
  quantity : Int
  status : TransferStatus
  approvedBy : Option String
  completedAt : Bool
deriving Repr, DecidableEq

/-- Modelled from the spec: the error kinds of §7. -/
inductive CoreError where
  | notFound
  | invalidTransition
  | insufficientStock
  | invalidArgument
deriving Repr, DecidableEq

/-- Modelled from the spec: the Adjustment Engine
operation `adjust(warehouseId, productId, delta, ...)` of §4.2, absent from
`src/server` (only the client caller of `/api/inventory/adjust` exists).
Reads the cell (quantity defaulting to 0), rejects a negative result with
`InsufficientStock`, otherwise persists the new quantity and appends one
Stock Movement recording the old and new quantities. -/
def adjust (s : Store) (w p : String) (delta : Int) :
    Except CoreError Store :=
  let q := (cellQuantity s w p).getD 0
  let newQ := q + delta
  if newQ < 0 then .error .insufficientStock
  else .ok { s with
    inv := updateCell s.inv w p newQ,
    movements := s.movements ++ [⟨w, p, delta, q, newQ⟩] }

/-- Modelled from the spec: `request` of §4.3 — creates a `pending` transfer,
rejecting a same-warehouse move or a non-positive quantity. -/
def requestTransfer (fromW toW pid : String) (qty : Int) :
    Except CoreError Transfer :=
  if fromW = toW ∨ qty ≤ 0 then .error .invalidArgument
  else .ok ⟨fromW, toW, pid, qty, .pending, none, false⟩

/-- Modelled from the spec: `approve(transferId, approvedBy)` of §4.3 —
legal only from `pending`, otherwise `InvalidTransition`. -/
def approveTransfer (t : Transfer) (approver : String) :
    Except CoreError Transfer :=
  if t.status = .pending then
    .ok { t with status := .approved, approvedBy := some approver }
  else .error .invalidTransition

/-- Modelled from the spec: `process(transferId)` of §4.3 — legal only from
`approved`; re-reads the source cell, fails with `InsufficientStock` when
`available < quantity`, otherwise applies the two adjustment legs and
completes the transfer. -/
def processTransfer (s : Store) (t : Transfer) :
    Except CoreError (Store × Transfer) :=
  if t.status = .approved then
    let avail :=
      ((getCell s t.fromWarehouseId t.productId).map
        (fun r => r.quantity - r.reservedQuantity)).getD 0
    if avail < t.quantity then .error .insufficientStock
    else
      match adjust s t.fromWarehouseId t.productId (-t.quantity) with
      | .error e => .error e
      | .ok s1 =>
        match adjust s1 t.toWarehouseId t.productId t.quantity with
        | .error e => .error e
        | .ok s2 =>
          .ok (s2, { t with status := .completed, completedAt := true })
  else .error .invalidTransition

/-- Modelled from the spec: `cancel(transferId)` of §4.3 — legal from
`pending` or `approved` only. -/
def cancelTransfer (t : Transfer) : Except CoreError Transfer :=
  if t.status = .pending ∨ t.status = .approved then
    .ok { t with status := .cancelled }
  else .error .invalidTransition

/-- Claim C4.  The transfer state machine is closed: `approve` on a
non-`pending` transfer and `process` on a non-`approved` transfer fail with
`InvalidTransition`, and on a `completed` or `cancelled` transfer every
operation (`approve`, `cancel`, `process`) fails, so no transfer ever leaves
a terminal state. -/
theorem transfer_state_machine_closed :
    (∀ (t : Transfer) (u : String), t.status ≠ .pending →
      approveTransfer t u = .error .invalidTransition) ∧
    (∀ (s : Store) (t : Transfer), t.status ≠ .approved →
      processTransfer s t = .error .invalidTransition) ∧
    (∀ t : Transfer, t.status = .completed ∨ t.status = .cancelled →
      (∀ u, approveTransfer t u = .error .invalidTransition) ∧
      cancelTransfer t = .error .invalidTransition ∧
      (∀ s, processTransfer s t = .error .invalidTransition)) := by
  refine ⟨?_, ?_, ?_⟩
  · intro t u h
    simp [approveTransfer, h]
  · intro s t h
    simp [processTransfer, h]
  · intro t h
    have hp : t.status ≠ .pending := by
      rcases h with h | h <;> simp [h]
    have ha : t.status ≠ .approved := by
      rcases h with h | h <;> simp [h]
    refine ⟨fun u => by simp [approveTransfer, hp], ?_, fun s => by
      simp [processTransfer, ha]⟩
    have hc : ¬ (t.status = .pending ∨ t.status = .approved) := by
      rcases h with h | h <;> simp [h]
    simp [cancelTransfer, hc]

/-- A transfer already in the terminal `completed` state. -/
def completedTransfer : Transfer :=
  ⟨"W1", "W2", "P1", 20, .completed, some "u1", true⟩

/-- Witness for `transfer_state_machine_closed` on a completed transfer. -/
theorem transfer_state_machine_closed_witness :
    approveTransfer completedTransfer "u2" = .error .invalidTransition ∧
    cancelTransfer completedTransfer = .error .invalidTransition ∧
    processTransfer emptyStore completedTransfer
      = .error .invalidTransition := by
  have h := transfer_state_machine_closed.2.2 completedTransfer (Or.inl rfl)
  exact ⟨h.1 "u2", h.2.1, h.2.2 emptyStore⟩

/-! ## C7 — analytics margins -/

/-- The `leftJoin(products, eq(inventory.productId, products.id))` lookup. -/
def findProduct (s : Store) (pid : String) : Option ProductRow :=
  s.products.find? (fun pr => decide (pr.id = pid))

/-- `COALESCE(products.unitPrice, 0)` under the left join: 0 both when the
product row is missing and when its price column is NULL. -/
def joinedUnitPrice (s : Store) (pid : String) : ℚ :=
  match findProduct s pid with
  | none => 0
  | some pr => pr.unitPrice.getD 0

/-- `COALESCE(products.costPrice, 0)` under the left join (the column itself
is absent from `schema.ts`, hence always the 0 fallback on a faithful run;
the sum is embedded as written). -/
def joinedCostPrice (s : Store) (pid : String) : ℚ :=
  match findProduct s pid with
  | none => 0
  | some pr => pr.costPrice.getD 0

/-- The aggregate of `getWarehouseStats`, `storage.ts` lines 764-771:
`(SUM(quantity * COALESCE(unitPrice, 0)), SUM(quantity * COALESCE(costPrice, 0)))`
over the inventory rows of the warehouse. -/
def warehouseTotals (s : Store) (w : String) : ℚ × ℚ :=
  ((s.inv.filter (fun r => decide (r.warehouseId = w))).foldl
      (fun acc r => acc + (r.quantity : ℚ) * joinedUnitPrice s r.productId) 0,
   (s.inv.filter (fun r => decide (r.warehouseId = w))).foldl
      (fun acc r => acc + (r.quantity : ℚ) * joinedCostPrice s r.productId) 0)

/-- The same aggregate over every inventory row, `storage.ts` lines 844-850
(`getOverallStats`). -/
def overallTotals (s : Store) : ℚ × ℚ :=
  (s.inv.foldl
      (fun acc r => acc + (r.quantity : ℚ) * joinedUnitPrice s r.productId) 0,
   s.inv.foldl
      (fun acc r => acc + (r.quantity : ℚ) * joinedCostPrice s r.productId) 0)

/-- The profit-margin computation shared by `getWarehouseStats` (line 805)
and `getOverallStats` (line 869):
`totalValue > 0 ? ((totalValue - totalCost) / totalValue * 100) : "0"`.
The `toFixed(2)`/`"%"` string formatting is abstracted away; the value
before formatting is computed in ℚ. -/
def profitMarginOf (totalValue totalCost : ℚ) : ℚ :=
  if 0 < totalValue then (totalValue - totalCost) / totalValue * 100 else 0

/-- The `profitMargin` field reported by `getWarehouseStats`. -/
def getWarehouseStatsMargin (s : Store) (w : String) : ℚ :=
  profitMarginOf (warehouseTotals s w).1 (warehouseTotals s w).2

/-- The `profitMargin` field reported by `getOverallStats`. -/
def getOverallStatsMargin (s : Store) : ℚ :=
  profitMarginOf (overallTotals s).1 (overallTotals s).2

/-- A reachable store whose warehouse W1 has negative `totalValue`:
`updateInventory` accepts negative quantities, and -10 units priced 5 with
cost 1 give totalValue -50, totalCost -10. -/
def negValueStore : Store :=
  { emptyStore with
    inv := [⟨"W1", "P1", -10, 0, some 0, none⟩],
    products := [⟨"P1", some 5, some 1, true⟩] }

/-- Claim C7, counterexample.  The guard in the code is `totalValue > 0`, not
`totalValue ≠ 0`: on a warehouse with totalValue -50 and totalCost -10 the
code reports margin 0, while the claimed formula
`(totalValue - totalCost) / totalValue * 100` gives 80 — so the reported
margin does not always equal the formula. -/
theorem profitMargin_negative_totalValue :
    warehouseTotals negValueStore "W1" = (-50, -10) ∧
    getWarehouseStatsMargin negValueStore "W1" = 0 ∧
    ((-50 : ℚ) - (-10)) / (-50) * 100 = 80 ∧
    getWarehouseStatsMargin negValueStore "W1"
      ≠ ((-50 : ℚ) - (-10)) / (-50) * 100 := by
  have htot : warehouseTotals negValueStore "W1" = (-50, -10) := by
    simp [warehouseTotals, negValueStore, emptyStore, joinedUnitPrice,
      joinedCostPrice, findProduct, List.find?]
    norm_num
  have hm : getWarehouseStatsMargin negValueStore "W1" = 0 := by
    rw [getWarehouseStatsMargin, htot]
    simp [profitMarginOf]
  refine ⟨htot, hm, by norm_num, ?_⟩
  rw [hm]
  norm_num

/-- Claim C7, amended.  For every warehouse and for the global rollup the
reported margin equals `(totalValue - totalCost) / totalValue * 100` whenever
`totalValue > 0`, and equals 0 whenever `totalValue ≤ 0` — in particular it
is 0 (not NaN or an error) when `totalValue = 0`. -/
theorem profitMargin_guarded (s : Store) (w : String) :
    ((warehouseTotals s w).1 = 0 → getWarehouseStatsMargin s w = 0) ∧
    (0 < (warehouseTotals s w).1 →
      getWarehouseStatsMargin s w =
        ((warehouseTotals s w).1 - (warehouseTotals s w).2)
          / (warehouseTotals s w).1 * 100) ∧
    ((overallTotals s).1 = 0 → getOverallStatsMargin s = 0) ∧
    (0 < (overallTotals s).1 →
      getOverallStatsMargin s =
        ((overallTotals s).1 - (overallTotals s).2)
          / (overallTotals s).1 * 100) := by
  refine ⟨?_, ?_, ?_, ?_⟩
  · intro h
    simp [getWarehouseStatsMargin, profitMarginOf, h]
  · intro h
    simp [getWarehouseStatsMargin, profitMarginOf, h]
  · intro h
    simp [getOverallStatsMargin, profitMarginOf, h]
  · intro h
    simp [getOverallStatsMargin, profitMarginOf, h]

/-- Witness for `profitMargin_guarded`: on the empty store both totals are 0
and both reported margins are 0. -/
theorem profitMargin_guarded_witness :
    getWarehouseStatsMargin emptyStore "W1" = 0 ∧
    getOverallStatsMargin emptyStore = 0 := by
  have h := profitMargin_guarded emptyStore "W1"
  exact ⟨h.1 rfl, h.2.2.1 rfl⟩

/-! ## C10 — getOrders paging -/

/-- The drizzle `like` test with pattern `%pat%`: `pat` occurs somewhere in `hay`.
(`String.splitOn` yields more than one fragment exactly when the separator
occurs; the route only installs the condition for a non-empty search.) -/
def strContainsSub (hay pat : String) : Bool :=
  (hay.splitOn pat).length != 1

/-- The filter argument of `DatabaseStorage.getOrders`, `storage.ts` lines
192-200.  `none` stands for an absent (or JS-falsy) field, matching the
truthiness tests `if (filters?.platform)` etc.; `limit`/`offset` are carried
as supplied, their falsy-defaulting happening inside `getOrders`. -/
structure OrderFilters where
  platform : Option String
  status : Option String
  dateFrom : Option Int
  dateTo : Option Int
  search : Option String
  limit : Option Nat
  offset : Option Nat
deriving Repr, DecidableEq

/-- The conjunction of conditions built in `storage.ts` lines 201-225. -/
def matchesOrderFilters (f : OrderFilters) (o : OrderRow) : Bool :=
  (match f.platform with
   | none => true
   | some v => decide (o.platform = v)) &&
  (match f.status with
   | none => true
   | some v => decide (o.status = v)) &&
  (match f.dateFrom with
   | none => true
   | some d => decide (d ≤ o.createdAt)) &&
  (match f.dateTo with
   | none => true
   | some d => decide (o.createdAt ≤ d)) &&
  (match f.search with
   | none => true
   | some v => strContainsSub o.customerName v
       || strContainsSub o.productName v
       || strContainsSub o.platformOrderId v)

/-- Stable insertion into a list sorted by `createdAt` descending. -/
def insertByCreatedAtDesc (o : OrderRow) :
    List OrderRow → List OrderRow
  | [] => [o]
  | x :: xs =>
    if x.createdAt < o.createdAt then o :: x :: xs
    else x :: insertByCreatedAtDesc o xs

/-- `orderBy(desc(orders.createdAt))` as a stable sort. -/
def sortByCreatedAtDesc : List OrderRow → List OrderRow
  | [] => []
  | x :: xs => insertByCreatedAtDesc x (sortByCreatedAtDesc xs)

/-- `DatabaseStorage.getOrders`, `storage.ts` lines 227-244: filter, sort by
`createdAt` descending, then `.limit(filters?.limit || 20)` and
`.offset(filters?.offset || 0)`; the second component is the unlimited
filtered count returned as `total`. -/
def getOrders (s : Store) (f : OrderFilters) : List OrderRow × Nat :=
  let filtered := s.orders.filter (matchesOrderFilters f)
  let lim : Nat := match f.limit with
    | none => 20
    | some n => if n = 0 then 20 else n
  let off : Nat := f.offset.getD 0
  (((sortByCreatedAtDesc filtered).drop off).take lim, filtered.length)

/-- Claim C10.  A supplied limit of 0 is JS-falsy, so `limit || 20` applies
the default page size 20 — the whole result equals the result with no limit
supplied; any other supplied positive limit bounds the page length. -/
theorem getOrders_limit_semantics (s : Store) (f : OrderFilters) :
    (f.limit = some 0 →
      getOrders s f = getOrders s { f with limit := none }) ∧
    (∀ n : Nat, f.limit = some n → 0 < n →
      (getOrders s f).1.length ≤ n) := by
  constructor
  · intro h
    simp only [getOrders, h]
    rfl
  · intro n h hn
    simp only [getOrders, h]
    rw [if_neg (Nat.pos_iff_ne_zero.mp hn)]
    exact List.length_take_le n _

/-- Three concrete orders for the paging witness. -/
def ordersStore : Store :=
  { emptyStore with orders :=
      [⟨"A-1", "amazon", "Asha", "Lamp", "pending", 3⟩,
       ⟨"A-2", "amazon", "Ben", "Desk", "shipped", 2⟩,
       ⟨"F-1", "flipkart", "Caro", "Chair", "pending", 1⟩] }

/-- No filters, limit 2. -/
def filtersLimit2 : OrderFilters := ⟨none, none, none, none, none, some 2, none⟩

/-- No filters, explicit limit 0. -/
def filtersLimit0 : OrderFilters := ⟨none, none, none, none, none, some 0, none⟩

/-- Witness for `getOrders_limit_semantics`: limit 2 returns at most two of
the three orders, and limit 0 behaves exactly like no limit. -/
theorem getOrders_limit_semantics_witness :
    (getOrders ordersStore filtersLimit2).1.length ≤ 2 ∧
    getOrders ordersStore filtersLimit0
      = getOrders ordersStore { filtersLimit0 with limit := none } := by
  exact ⟨(getOrders_limit_semantics ordersStore filtersLimit2).2 2 rfl
      (by decide),
    (getOrders_limit_semantics ordersStore filtersLimit0).1 rfl⟩

end OrderFlowMaster
